import Mathlib

/-!
Verification of the joystick input-conditioning module (`joystick.h` /
`joystick.cpp`, namespace `joy`).

The C++ floating-point arithmetic is embedded over the exact rationals `ℚ`;
fixed-size C arrays become functions out of `Fin`; the static local state of
`updateSharedState` (the `firstCall` flag and the `filteredRaw` array) and the
global accumulators become explicit state records threaded through the
functions.  The build configuration is the repository default: the `SLEW`
macro in `joystick.h` is commented out, so the `#ifdef SLEW` branch of
`updateSharedState` is not compiled and the shaped value is published
directly.
-/

namespace Joy

/-! ### Configuration constants (joystick.h) -/

def MAX_AXES : ℕ := 8
def MAX_BUTTONS : ℕ := 13

def DEFAULT_ALPHA : ℚ := 3 / 2000       -- 0.0015f
def DEFAULT_DEADZONE : ℚ := 1 / 10      -- 0.1f

def SLEW_INITIAL_MAX_DELTA : ℚ := 1 / 10   -- 0.1f
def SLEW_RUNNING_MAX_DELTA : ℚ := 1 / 1000 -- 0.001f
def SLEW_SWITCH_TIME_S : ℚ := 1

def BUTTON_L1 : ℕ := 4
def BUTTON_R1 : ℕ := 5
def BUTTON_L2 : ℕ := 6
def BUTTON_R2 : ℕ := 7

def accumStep : ℚ := 1 / 1000           -- 0.001

def RAW_AXIS_MAX_NEG : ℚ := 32767
def RAW_AXIS_MAX_POS : ℚ := 32767

def INIT_DELAY_SEC : ℚ := 3
def BUTTON_START : ℕ := 11

/-! ### Pure per-axis functions (joystick.cpp lines 23-85) -/

/-- `lowpassFilter_Joy` (joystick.cpp line 23): exponential moving average. -/
def lowpassFilter_Joy (previous current alpha : ℚ) : ℚ :=
  previous + alpha * (current - previous)

/-- `scaleJoystickOutput` (joystick.cpp lines 42-52): dead zone then quadratic
ramp, sign restored from the input. -/
def scaleJoystickOutput (normalized deadZoneThreshold : ℚ) : ℚ :=
  let absVal := |normalized|
  if absVal < deadZoneThreshold then 0
  else
    let adjusted := (absVal - deadZoneThreshold) / (1 - deadZoneThreshold)
    let adjusted2 := adjusted ^ 2
    if 0 ≤ normalized then adjusted2 else -adjusted2

/-- `applySlewRate` (joystick.cpp lines 66-74): clamp the per-tick change to
`[-maxDelta, maxDelta]`. -/
def applySlewRate (previous desired maxDelta : ℚ) : ℚ :=
  let diff := desired - previous
  let diff2 := if diff > maxDelta then maxDelta
               else if diff < -maxDelta then -maxDelta
               else diff
  previous + diff2

/-- `normalizeAxisValue` (joystick.cpp lines 79-85): divide by the side-specific
maximum magnitude. -/
def normalizeAxisValue (raw : ℚ) : ℚ :=
  if raw < 0 then raw / RAW_AXIS_MAX_NEG else raw / RAW_AXIS_MAX_POS

/-- The `maxDelta` selection of `updateSharedState` (joystick.cpp line 117):
the larger initial bound for the first `SLEW_SWITCH_TIME_S` seconds, then the
small steady-state bound. -/
def slewMaxDelta (elapsed : ℚ) : ℚ :=
  if elapsed < SLEW_SWITCH_TIME_S then SLEW_INITIAL_MAX_DELTA
  else SLEW_RUNNING_MAX_DELTA

/-! ### State records (joystick.h lines 59-75, statics of joystick.cpp) -/

/-- `struct JoystickState` (joystick.h lines 59-62): fixed arrays of axis
values and button states. -/
structure JoystickState where
  axes : Fin MAX_AXES → ℚ
  buttons : Fin MAX_BUTTONS → ℤ

/-- `{0}`-initialization of a `JoystickState`. -/
def JoystickState.zero : JoystickState := ⟨fun _ => 0, fun _ => 0⟩

/-- The static locals of `updateSharedState` (joystick.cpp lines 121-125):
the `firstCall` flag and the per-axis `filteredRaw` array. -/
structure PipelineState where
  firstCall : Bool
  filteredRaw : Fin MAX_AXES → ℚ

/-- Static initialization: `firstCall = true`, `filteredRaw = {0.0f}`. -/
def PipelineState.init : PipelineState := ⟨true, fun _ => 0⟩

/-- `updateSharedState` (joystick.cpp lines 109-166) as compiled in the
default build: the `SLEW` macro (joystick.h line 17) is commented out, so the
`#ifdef SLEW` branch is absent and the shaped value is published directly;
the `maxDelta` computed from the elapsed time is unused.  The static locals
are threaded as `ps`, the published record as `shared`; the result is the
updated statics paired with the new `head_shared`. -/
def updateSharedState (ps : PipelineState) (shared : JoystickState)
    (localState : JoystickState) (alpha deadZoneThreshold elapsed : ℚ) :
    PipelineState × JoystickState :=
  let _maxDelta := slewMaxDelta elapsed
  if ps.firstCall then
    let filtered : Fin MAX_AXES → ℚ := fun i => localState.axes i
    let shared' : JoystickState :=
      { axes := fun i =>
          scaleJoystickOutput (normalizeAxisValue (filtered i)) deadZoneThreshold
        buttons := fun i => localState.buttons i }
    (⟨false, filtered⟩, shared')
  else
    let filtered : Fin MAX_AXES → ℚ :=
      fun i => lowpassFilter_Joy (ps.filteredRaw i) (localState.axes i) alpha
    let shared' : JoystickState :=
      { axes := fun i =>
          scaleJoystickOutput (normalizeAxisValue (filtered i)) deadZoneThreshold
        buttons := fun i => localState.buttons i }
    (⟨false, filtered⟩, shared')

/-- A run of `updateSharedState` over a list of ticks, each tick carrying the
latest `localState` frame and the elapsed time used for `maxDelta`. -/
def runPipeline (s : PipelineState × JoystickState)
    (frames : List (JoystickState × ℚ)) (alpha dz : ℚ) :
    PipelineState × JoystickState :=
  frames.foldl (fun st fr => updateSharedState st.1 st.2 fr.1 alpha dz fr.2) s

/-! ### Full loop state (globals of joystick.cpp plus locals of
`readJoystickEvents`) -/

/-- The mutable state the ingestion loop touches: the loop-local `localState`
and `initDone`, the globals `inputEnabled`, `head_shared`, `lr1_accumulated`,
`lr2_accumulated`, and the statics of `updateSharedState`. -/
structure SysState where
  localState : JoystickState
  initDone : Bool
  inputEnabled : Bool
  head_shared : JoystickState
  lr1_accumulated : ℚ
  lr2_accumulated : ℚ
  pipeline : PipelineState

/-- Process-start state: everything zero-initialized, `inputEnabled = false`,
`initDone = false`, `firstCall = true`. -/
def initialSys : SysState :=
  ⟨JoystickState.zero, false, false, JoystickState.zero, 0, 0, PipelineState.init⟩

/-- `std::clamp(v, lo, hi)`. -/
def clampQ (v lo hi : ℚ) : ℚ :=
  if v < lo then lo else if hi < v then hi else v

def idxL1 : Fin MAX_BUTTONS := ⟨BUTTON_L1, by decide⟩
def idxR1 : Fin MAX_BUTTONS := ⟨BUTTON_R1, by decide⟩
def idxL2 : Fin MAX_BUTTONS := ⟨BUTTON_L2, by decide⟩
def idxR2 : Fin MAX_BUTTONS := ⟨BUTTON_R2, by decide⟩
def idxStart : Fin MAX_BUTTONS := ⟨BUTTON_START, by decide⟩

/-- `updateAccumulators` (joystick.cpp lines 186-202): each held button of the
two pairs moves its accumulator by `step`, decrement applied before increment,
clamping to `[-1, 1]` after each move.  Only the two accumulator globals are
assigned. -/
def updateAccumulators (s : SysState) (state : JoystickState) (step : ℚ) :
    SysState :=
  let lr1a := if state.buttons idxL1 ≠ 0
              then clampQ (s.lr1_accumulated - step) (-1) 1
              else s.lr1_accumulated
  let lr1b := if state.buttons idxR1 ≠ 0
              then clampQ (lr1a + step) (-1) 1
              else lr1a
  let lr2a := if state.buttons idxL2 ≠ 0
              then clampQ (s.lr2_accumulated - step) (-1) 1
              else s.lr2_accumulated
  let lr2b := if state.buttons idxR2 ≠ 0
              then clampQ (lr2a + step) (-1) 1
              else lr2a
  { s with lr1_accumulated := lr1b, lr2_accumulated := lr2b }

/-- A frame holding axes at zero and exactly the listed buttons pressed. -/
def buttonsOnly (pressed : List ℕ) : JoystickState :=
  ⟨fun _ => 0, fun i => if (i : ℕ) ∈ pressed then 1 else 0⟩

/-- `k` consecutive accumulator ticks with a fixed held-button frame. -/
def iterateHold (s : SysState) (state : JoystickState) (step : ℚ) : ℕ → SysState
  | 0 => s
  | k + 1 => updateAccumulators (iterateHold s state step k) state step

/-! ### Device events and the ingestion-loop body (joystick.cpp lines
225-318) -/

/-- A decoded `js_event` after the `JS_EVENT_INIT` bit has been masked off
(line 256): either an axis event or a button event, with the raw `__s16`
value. -/
inductive JsEvent where
  | axis (number : ℕ) (value : ℤ)
  | button (number : ℕ) (value : ℤ)
deriving DecidableEq

/-- Lines 257-277: fold one decoded event into `localState`; the index is
bounds-checked before the array store, out-of-range events change nothing. -/
def applyEvent (ls : JoystickState) (e : JsEvent) : JoystickState :=
  match e with
  | .axis n v =>
      if h : n < MAX_AXES then
        { ls with axes := Function.update ls.axes ⟨n, h⟩ (v : ℚ) }
      else ls
  | .button n v =>
      if h : n < MAX_BUTTONS then
        { ls with buttons := Function.update ls.buttons ⟨n, h⟩ v }
      else ls

/-- An event whose index fails the bounds check of lines 259 / 269. -/
def eventOutOfRange : JsEvent → Prop
  | .axis n _ => MAX_AXES ≤ n
  | .button n _ => MAX_BUTTONS ≤ n

/-- One iteration of the `readJoystickEvents` while-loop body (lines
254-304): decode at most one event into `localState`; while `initDone` is
false mirror the START button into `head_shared` and test the enable
condition (whole elapsed seconds at least `INIT_DELAY_SEC` and the mirrored
START button equal to `1`); once `inputEnabled`, run `updateAccumulators`
then `updateSharedState`.  `elapsedInit` is the time since loop start,
`elapsedPipeline` the time base of the slew-bound switch. -/
def loopTick (s : SysState) (ev : Option JsEvent)
    (elapsedInit elapsedPipeline : ℚ) : SysState :=
  let ls := match ev with
    | some e => applyEvent s.localState e
    | none => s.localState
  let s1 := { s with localState := ls }
  let s2 :=
    if s1.initDone = false then
      { s1 with head_shared :=
          { s1.head_shared with
            buttons := Function.update s1.head_shared.buttons idxStart
              (ls.buttons idxStart) } }
    else s1
  let s3 :=
    if s2.initDone = false ∧ INIT_DELAY_SEC ≤ ((⌊elapsedInit⌋ : ℤ) : ℚ) ∧
        s2.head_shared.buttons idxStart = 1 then
      { s2 with inputEnabled := true, initDone := true }
    else s2
  if s3.inputEnabled = true then
    let s4 := updateAccumulators s3 s3.localState accumStep
    let res := updateSharedState s4.pipeline s4.head_shared s4.localState
      DEFAULT_ALPHA DEFAULT_DEADZONE elapsedPipeline
    { s4 with pipeline := res.1, head_shared := res.2 }
  else s3

/-! ### Gate state machine in isolation (lines 279-296) -/

/-- One tick's gate-relevant inputs: the true elapsed time since ingestion
start (the code compares its whole-second truncation against
`INIT_DELAY_SEC`) and the local START-button state. -/
structure GateTick where
  elapsed : ℚ
  startLocal : ℤ

/-- The gate-relevant state: the loop-local `initDone`, the global
`inputEnabled`, and the mirrored START button slot of `head_shared`. -/
structure GateMachine where
  initDone : Bool
  inputEnabled : Bool
  sharedStart : ℤ

/-- Loop-entry gate state. -/
def gateInit : GateMachine := ⟨false, false, 0⟩

/-- Lines 279-296 restricted to the gate fields: mirror the START button
while `initDone` is false, then enable exactly when the truncated elapsed
seconds reach `INIT_DELAY_SEC` and the mirrored button is `1`. -/
def gateTick (g : GateMachine) (t : GateTick) : GateMachine :=
  let sharedStart := if g.initDone = false then t.startLocal else g.sharedStart
  if g.initDone = false ∧ INIT_DELAY_SEC ≤ ((⌊t.elapsed⌋ : ℤ) : ℚ) ∧
      sharedStart = 1 then
    { initDone := true, inputEnabled := true, sharedStart := sharedStart }
  else
    { g with sharedStart := sharedStart }

/-- The gate over a whole run of ticks. -/
def gateRun (g : GateMachine) (ts : List GateTick) : GateMachine :=
  ts.foldl gateTick g

/-! ### Bound lemmas for the per-axis functions -/

theorem lowpassFilter_Joy_abs_le {previous current alpha M : ℚ}
    (h0 : 0 ≤ alpha) (h1 : alpha ≤ 1)
    (hp : |previous| ≤ M) (hc : |current| ≤ M) :
    |lowpassFilter_Joy previous current alpha| ≤ M := by
  rw [abs_le] at hp hc ⊢
  unfold lowpassFilter_Joy
  constructor <;> nlinarith [hp.1, hp.2, hc.1, hc.2]

theorem normalizeAxisValue_abs_le {raw : ℚ} (h : |raw| ≤ 32767) :
    |normalizeAxisValue raw| ≤ 1 := by
  rw [abs_le] at h ⊢
  unfold normalizeAxisValue RAW_AXIS_MAX_NEG RAW_AXIS_MAX_POS
  split <;> constructor <;> linarith

theorem scaleJoystickOutput_abs_le {x t : ℚ}
    (hx : |x| ≤ 1) (ht0 : 0 ≤ t) (ht1 : t < 1) :
    |scaleJoystickOutput x t| ≤ 1 := by
  unfold scaleJoystickOutput
  dsimp only
  split
  · simp
  · rename_i hdz
    push_neg at hdz
    have habs : 0 ≤ |x| := abs_nonneg x
    have hnum0 : 0 ≤ |x| - t := by linarith
    have hnum1 : |x| - t ≤ 1 - t := by linarith
    have hden : 0 < 1 - t := by linarith
    have hadj0 : 0 ≤ (|x| - t) / (1 - t) := div_nonneg hnum0 hden.le
    have hadj1 : (|x| - t) / (1 - t) ≤ 1 := (div_le_one hden).mpr hnum1
    have hsq0 : 0 ≤ ((|x| - t) / (1 - t)) ^ 2 := sq_nonneg _
    have hsq1 : ((|x| - t) / (1 - t)) ^ 2 ≤ 1 := by nlinarith
    split <;> rw [abs_le] <;> constructor <;> linarith

/-! ### C5: normalization stays in the unit range -/

/-- **C5** (amended): for every raw axis value within the configured maxima
(`|raw| ≤ 32767`), `normalizeAxisValue raw` lies in `[-1, 1]`. -/
theorem normalizeAxisValue_mem_unit (raw : ℚ)
    (hlo : -32767 ≤ raw) (hhi : raw ≤ 32767) :
    -1 ≤ normalizeAxisValue raw ∧ normalizeAxisValue raw ≤ 1 := by
  have habs : |raw| ≤ 32767 := by
    rw [abs_le]
    exact ⟨hlo, hhi⟩
  have h := normalizeAxisValue_abs_le habs
  rw [abs_le] at h
  exact h

theorem normalizeAxisValue_mem_unit_witness :
    (-32767 ≤ (-32767 : ℚ) ∧ (-32767 : ℚ) ≤ 32767) ∧
    (-1 ≤ normalizeAxisValue (-32767) ∧ normalizeAxisValue (-32767) ≤ 1) :=
  ⟨⟨by norm_num, by norm_num⟩,
   normalizeAxisValue_mem_unit (-32767) (by norm_num) (by norm_num)⟩

/-- **C5** fails as stated: the raw event value is a signed 16-bit integer, and
at the representable value `-32768` the normalized output lies below `-1`. -/
theorem normalizeAxisValue_int16_counterexample :
    (-32768 : ℤ) = Int.negSucc 32767 ∧
    ¬ (-1 ≤ normalizeAxisValue ((-32768 : ℤ) : ℚ)) := by
  constructor
  · rfl
  · unfold normalizeAxisValue RAW_AXIS_MAX_NEG RAW_AXIS_MAX_POS
    norm_num

/-! ### C6: odd symmetry of the dead-zone/ramp shaper -/

/-- **C6**: the shaper is odd-symmetric: for every `x` and every threshold
`t ∈ [0, 1)`, `scaleJoystickOutput (-x) t = -scaleJoystickOutput x t`. -/
theorem scaleJoystickOutput_odd (x t : ℚ) (ht0 : 0 ≤ t) (ht1 : t < 1) :
    scaleJoystickOutput (-x) t = -scaleJoystickOutput x t := by
  unfold scaleJoystickOutput
  dsimp only
  rw [abs_neg]
  rcases lt_trichotomy x 0 with hx | hx | hx
  · by_cases hdz : |x| < t
    · rw [if_pos hdz, if_pos hdz]
      ring
    · rw [if_neg hdz, if_neg hdz, if_pos (le_of_lt (neg_pos.mpr hx)),
        if_neg (not_le.mpr hx)]
      ring
  · subst hx
    simp only [neg_zero, abs_zero]
    rcases eq_or_lt_of_le ht0 with h | h
    · rw [← h]
      norm_num
    · rw [if_pos h]
      norm_num
  · by_cases hdz : |x| < t
    · rw [if_pos hdz, if_pos hdz]
      ring
    · rw [if_neg hdz, if_neg hdz, if_neg (not_le.mpr (neg_lt_zero.mpr hx)),
        if_pos hx.le]

theorem scaleJoystickOutput_odd_witness :
    ((0 : ℚ) ≤ 1/10 ∧ (1/10 : ℚ) < 1) ∧
    scaleJoystickOutput (-(1/2)) (1/10) = -scaleJoystickOutput (1/2) (1/10) :=
  ⟨⟨by norm_num, by norm_num⟩,
   scaleJoystickOutput_odd (1/2) (1/10) (by norm_num) (by norm_num)⟩

/-! ### C8: slew limiter stays between endpoints, exact iff within bound -/

/-- **C8**: for `maxDelta ≥ 0`, `applySlewRate previous desired maxDelta` lies
between `previous` and `desired` inclusive, and it equals `desired` exactly
when `|desired - previous| ≤ maxDelta`. -/
theorem applySlewRate_between (previous desired maxDelta : ℚ)
    (hm : 0 ≤ maxDelta) :
    (min previous desired ≤ applySlewRate previous desired maxDelta ∧
      applySlewRate previous desired maxDelta ≤ max previous desired) ∧
    (applySlewRate previous desired maxDelta = desired ↔
      |desired - previous| ≤ maxDelta) := by
  unfold applySlewRate
  dsimp only
  rw [abs_le]
  refine ⟨⟨?_, ?_⟩, ?_, ?_⟩
  · split
    · rename_i hgt
      exact le_trans (min_le_left _ _) (by linarith)
    · split
      · rename_i hgt hlt
        exact le_trans (min_le_right _ _) (by linarith)
      · rename_i hgt hlt
        exact le_trans (min_le_right _ _) (by linarith)
  · split
    · rename_i hgt
      exact le_trans (by linarith) (le_max_right _ _)
    · split
      · rename_i hgt hlt
        exact le_trans (by linarith) (le_max_left _ _)
      · rename_i hgt hlt
        exact le_trans (by linarith) (le_max_right _ _)
  · intro heq
    split at heq
    · constructor <;> linarith
    · split at heq
      · constructor <;> linarith
      · rename_i hgt hlt
        constructor <;> linarith
  · intro h
    split
    · linarith [h.2]
    · split
      · linarith [h.1]
      · ring

theorem applySlewRate_between_witness :
    (0 : ℚ) ≤ 1/1000 ∧
    ((min (0 : ℚ) 1 ≤ applySlewRate 0 1 (1/1000) ∧
       applySlewRate 0 1 (1/1000) ≤ max (0 : ℚ) 1) ∧
     (applySlewRate 0 1 (1/1000) = 1 ↔ |(1 : ℚ) - 0| ≤ 1/1000)) :=
  ⟨by norm_num, applySlewRate_between 0 1 (1/1000) (by norm_num)⟩

/-! ### C9: low-pass filter stays between its arguments -/

/-- **C9**: for `alpha ∈ (0, 1]`, `lowpassFilter_Joy previous current alpha`
lies between `min previous current` and `max previous current`, and with
`alpha = 1` it equals `current`. -/
theorem lowpassFilter_Joy_between (previous current alpha : ℚ)
    (h0 : 0 < alpha) (h1 : alpha ≤ 1) :
    (min previous current ≤ lowpassFilter_Joy previous current alpha ∧
      lowpassFilter_Joy previous current alpha ≤ max previous current) ∧
    (alpha = 1 → lowpassFilter_Joy previous current alpha = current) := by
  unfold lowpassFilter_Joy
  constructor
  · rcases le_total previous current with h | h
    · rw [min_eq_left h, max_eq_right h]
      constructor <;> nlinarith
    · rw [min_eq_right h, max_eq_left h]
      constructor <;> nlinarith
  · intro ha
    rw [ha]
    ring

theorem lowpassFilter_Joy_between_witness :
    ((0 : ℚ) < 1 ∧ (1 : ℚ) ≤ 1) ∧
    ((min (2 : ℚ) 5 ≤ lowpassFilter_Joy 2 5 1 ∧
       lowpassFilter_Joy 2 5 1 ≤ max (2 : ℚ) 5) ∧
     ((1 : ℚ) = 1 → lowpassFilter_Joy 2 5 1 = 5)) :=
  ⟨⟨by norm_num, by norm_num⟩, lowpassFilter_Joy_between 2 5 1 (by norm_num) (by norm_num)⟩

/-! ### C1: published axis values stay in the unit range -/

/-- Run invariant of the conditioning pipeline: the filter state stays within
the raw magnitude bound and every published axis value stays in the unit
range. -/
def PipeInv (s : PipelineState × JoystickState) : Prop :=
  (∀ i, |s.1.filteredRaw i| ≤ 32767) ∧ (∀ i, |s.2.axes i| ≤ 1)

theorem updateSharedState_preserves_inv
    {s : PipelineState × JoystickState} {fr : JoystickState} {alpha dz e : ℚ}
    (hfr : ∀ i, |fr.axes i| ≤ 32767)
    (ha0 : 0 ≤ alpha) (ha1 : alpha ≤ 1) (hdz0 : 0 ≤ dz) (hdz1 : dz < 1)
    (hinv : PipeInv s) :
    PipeInv (updateSharedState s.1 s.2 fr alpha dz e) := by
  obtain ⟨hfilt, _⟩ := hinv
  unfold updateSharedState
  dsimp only
  split
  · exact ⟨fun i => hfr i, fun i =>
      scaleJoystickOutput_abs_le (normalizeAxisValue_abs_le (hfr i)) hdz0 hdz1⟩
  · exact ⟨fun i => lowpassFilter_Joy_abs_le ha0 ha1 (hfilt i) (hfr i),
      fun i => scaleJoystickOutput_abs_le (normalizeAxisValue_abs_le
        (lowpassFilter_Joy_abs_le ha0 ha1 (hfilt i) (hfr i))) hdz0 hdz1⟩

theorem runPipeline_preserves_inv {alpha dz : ℚ}
    (ha0 : 0 ≤ alpha) (ha1 : alpha ≤ 1) (hdz0 : 0 ≤ dz) (hdz1 : dz < 1) :
    ∀ (frames : List (JoystickState × ℚ)) (s : PipelineState × JoystickState),
      (∀ fr ∈ frames, ∀ i, |fr.1.axes i| ≤ 32767) → PipeInv s →
      PipeInv (runPipeline s frames alpha dz) := by
  intro frames
  induction frames with
  | nil => intro s _ hs; exact hs
  | cons fr tl ih =>
      intro s hframes hs
      exact ih _ (fun g hg i => hframes g (List.mem_cons_of_mem _ hg) i)
        (updateSharedState_preserves_inv
          (fun i => hframes fr (List.mem_cons_self _ _) i) ha0 ha1 hdz0 hdz1 hs)

/-- **C1** (amended): starting from the zero-initialized state, for every
sequence of ticks in which every raw axis magnitude stays within the
configured maximum 32767 (the documented device range), every axis value
published into `head_shared` lies in `[-1, 1]`, for any filter coefficient in
`[0, 1]` and any dead-zone threshold in `[0, 1)` (the defaults included). -/
theorem head_shared_axes_mem_unit (frames : List (JoystickState × ℚ))
    (alpha dz : ℚ)
    (hframes : ∀ fr ∈ frames, ∀ i, |fr.1.axes i| ≤ 32767)
    (ha0 : 0 ≤ alpha) (ha1 : alpha ≤ 1) (hdz0 : 0 ≤ dz) (hdz1 : dz < 1)
    (i : Fin MAX_AXES) :
    -1 ≤ (runPipeline (PipelineState.init, JoystickState.zero)
        frames alpha dz).2.axes i ∧
      (runPipeline (PipelineState.init, JoystickState.zero)
        frames alpha dz).2.axes i ≤ 1 := by
  have hinit : PipeInv (PipelineState.init, JoystickState.zero) :=
    ⟨fun j => by simp [PipelineState.init], fun j => by simp [JoystickState.zero]⟩
  have h := (runPipeline_preserves_inv ha0 ha1 hdz0 hdz1 frames _ hframes hinit).2 i
  rwa [abs_le] at h

theorem head_shared_axes_mem_unit_witness :
    ((∀ fr ∈ [((⟨fun _ => 32767, fun _ => 0⟩ : JoystickState), (0 : ℚ))],
        ∀ i, |fr.1.axes i| ≤ 32767) ∧
      (0 : ℚ) ≤ DEFAULT_ALPHA ∧ DEFAULT_ALPHA ≤ 1 ∧
      (0 : ℚ) ≤ DEFAULT_DEADZONE ∧ DEFAULT_DEADZONE < 1) ∧
    (-1 ≤ (runPipeline (PipelineState.init, JoystickState.zero)
        [((⟨fun _ => 32767, fun _ => 0⟩ : JoystickState), (0 : ℚ))]
        DEFAULT_ALPHA DEFAULT_DEADZONE).2.axes ⟨0, by decide⟩ ∧
      (runPipeline (PipelineState.init, JoystickState.zero)
        [((⟨fun _ => 32767, fun _ => 0⟩ : JoystickState), (0 : ℚ))]
        DEFAULT_ALPHA DEFAULT_DEADZONE).2.axes ⟨0, by decide⟩ ≤ 1) :=
  ⟨⟨by
      intro fr hfr i
      simp only [List.mem_singleton] at hfr
      subst hfr
      show |(32767 : ℚ)| ≤ 32767
      rw [abs_le]
      constructor <;> norm_num,
    by norm_num [DEFAULT_ALPHA], by norm_num [DEFAULT_ALPHA],
    by norm_num [DEFAULT_DEADZONE], by norm_num [DEFAULT_DEADZONE]⟩,
   head_shared_axes_mem_unit _ _ _
     (by
       intro fr hfr i
       simp only [List.mem_singleton] at hfr
       subst hfr
       show |(32767 : ℚ)| ≤ 32767
       rw [abs_le]
       constructor <;> norm_num)
     (by norm_num [DEFAULT_ALPHA]) (by norm_num [DEFAULT_ALPHA])
     (by norm_num [DEFAULT_DEADZONE]) (by norm_num [DEFAULT_DEADZONE]) _⟩

/-- **C1** fails as stated: `-32768` is representable as a signed 16-bit
integer, and a first tick carrying it publishes an axis value below `-1`
(the normalizer divides by 32767 and the shaper squares a magnitude above
one). -/
theorem head_shared_axes_int16_counterexample :
    ¬ (-1 ≤ (runPipeline (PipelineState.init, JoystickState.zero)
        [((⟨fun _ => ((-32768 : ℤ) : ℚ), fun _ => 0⟩ : JoystickState), (0 : ℚ))]
        DEFAULT_ALPHA DEFAULT_DEADZONE).2.axes ⟨0, by decide⟩) := by
  rw [show (runPipeline (PipelineState.init, JoystickState.zero)
      [((⟨fun _ => ((-32768 : ℤ) : ℚ), fun _ => 0⟩ : JoystickState), (0 : ℚ))]
      DEFAULT_ALPHA DEFAULT_DEADZONE).2.axes ⟨0, by decide⟩ =
      scaleJoystickOutput (normalizeAxisValue ((-32768 : ℤ) : ℚ))
        DEFAULT_DEADZONE from rfl]
  have h2 : ((-32768 : ℤ) : ℚ) = -32768 := by norm_num
  rw [h2]
  have h3 : normalizeAxisValue (-32768) = -(32768 / 32767) := by
    unfold normalizeAxisValue RAW_AXIS_MAX_NEG
    rw [if_pos (by norm_num : (-32768 : ℚ) < 0)]
    norm_num
  rw [h3]
  unfold scaleJoystickOutput DEFAULT_DEADZONE
  dsimp only
  have habs : |(-(32768 / 32767) : ℚ)| = 32768 / 32767 := by
    rw [abs_neg, abs_of_pos (by norm_num : (0 : ℚ) < 32768 / 32767)]
  rw [habs, if_neg (by norm_num), if_neg (by norm_num)]
  norm_num

/-! ### C2: what a steady tick publishes -/

/-- **C2** fails as stated: in the default build the `SLEW` macro is not
defined, so the steady tick publishes the shaped value directly rather than
the slew-limited value.  With filter state 32767, published shared value 0,
raw input 32767 and the default parameters at elapsed time 2 s, the code
publishes 1 while the claimed slew-limited composition gives 1/1000. -/
theorem updateSharedState_no_slew_counterexample :
    (updateSharedState ⟨false, fun _ => 32767⟩ JoystickState.zero
        ⟨fun _ => 32767, fun _ => 0⟩ DEFAULT_ALPHA DEFAULT_DEADZONE 2).2.axes
        ⟨0, by decide⟩ ≠
      applySlewRate (JoystickState.zero.axes ⟨0, by decide⟩)
        (scaleJoystickOutput
          (normalizeAxisValue (lowpassFilter_Joy 32767 32767 DEFAULT_ALPHA))
          DEFAULT_DEADZONE)
        (slewMaxDelta 2) := by
  rw [show (updateSharedState ⟨false, fun _ => 32767⟩ JoystickState.zero
      ⟨fun _ => 32767, fun _ => 0⟩ DEFAULT_ALPHA DEFAULT_DEADZONE 2).2.axes
      ⟨0, by decide⟩ =
      scaleJoystickOutput
        (normalizeAxisValue (lowpassFilter_Joy 32767 32767 DEFAULT_ALPHA))
        DEFAULT_DEADZONE from rfl]
  have hlp : lowpassFilter_Joy 32767 32767 DEFAULT_ALPHA = 32767 := by
    unfold lowpassFilter_Joy
    ring
  rw [hlp]
  have hnorm : normalizeAxisValue 32767 = 1 := by
    unfold normalizeAxisValue RAW_AXIS_MAX_NEG RAW_AXIS_MAX_POS
    rw [if_neg (by norm_num)]
    norm_num
  rw [hnorm]
  have hscale : scaleJoystickOutput 1 DEFAULT_DEADZONE = 1 := by
    unfold scaleJoystickOutput DEFAULT_DEADZONE
    dsimp only
    rw [abs_one, if_neg (by norm_num), if_pos (by norm_num : (0 : ℚ) ≤ 1)]
    norm_num
  rw [hscale]
  have hslew : applySlewRate (JoystickState.zero.axes ⟨0, by decide⟩) 1
      (slewMaxDelta 2) = 1 / 1000 := by
    show applySlewRate 0 1 (slewMaxDelta 2) = 1 / 1000
    have hmd : slewMaxDelta 2 = SLEW_RUNNING_MAX_DELTA := by
      unfold slewMaxDelta SLEW_SWITCH_TIME_S
      rw [if_neg (by norm_num)]
    rw [hmd]
    unfold applySlewRate SLEW_RUNNING_MAX_DELTA
    dsimp only
    rw [if_pos (by norm_num : (1 : ℚ) - 0 > 1 / 1000)]
    norm_num
  rw [hslew]
  norm_num

/-- **C2** (amended): on every tick after the first, the per-axis update
applies the axis filter, then normalization, then the dead-zone/ramp shaper,
and publishes that shaped value directly to the shared state (the slew
limiter is compiled only when the `SLEW` macro is defined, which the default
build leaves commented out); the filter state is updated accordingly. -/
theorem updateSharedState_steady_axes (f : Fin MAX_AXES → ℚ)
    (shared localState : JoystickState) (alpha dz e : ℚ) (i : Fin MAX_AXES) :
    (updateSharedState ⟨false, f⟩ shared localState alpha dz e).1.filteredRaw i =
        lowpassFilter_Joy (f i) (localState.axes i) alpha ∧
      (updateSharedState ⟨false, f⟩ shared localState alpha dz e).2.axes i =
        scaleJoystickOutput (normalizeAxisValue
          (lowpassFilter_Joy (f i) (localState.axes i) alpha)) dz :=
  ⟨rfl, rfl⟩

/-! ### C3: accumulator behaviour -/

theorem clampQ_eq_self {v lo hi : ℚ} (h1 : lo ≤ v) (h2 : v ≤ hi) :
    clampQ v lo hi = v := by
  unfold clampQ
  rw [if_neg (not_lt.mpr h1), if_neg (not_lt.mpr h2)]

theorem clampQ_add_min (k s : ℚ) (hk : 0 ≤ k) (hs : 0 ≤ s) :
    clampQ (min (k * s) 1 + s) (-1) 1 = min ((k + 1) * s) 1 := by
  unfold clampQ
  have hks : 0 ≤ k * s := mul_nonneg hk hs
  rcases le_total (k * s) 1 with h | h
  · rw [min_eq_left h]
    split_ifs with h1 h2
    · linarith
    · rw [min_eq_right (by nlinarith)]
    · rw [min_eq_left (by nlinarith)]
      ring
  · rw [min_eq_right h]
    split_ifs with h1 h2
    · linarith
    · rw [min_eq_right (by nlinarith)]
    · rw [min_eq_right (by nlinarith)]
      linarith

theorem updateAccumulators_holdR1_lr1 (s : SysState) (step : ℚ) :
    (updateAccumulators s (buttonsOnly [BUTTON_R1]) step).lr1_accumulated =
      clampQ (s.lr1_accumulated + step) (-1) 1 := rfl

theorem updateAccumulators_holdBoth_lr1 (s : SysState) (step : ℚ) :
    (updateAccumulators s (buttonsOnly [BUTTON_L1, BUTTON_R1]) step).lr1_accumulated =
      clampQ (clampQ (s.lr1_accumulated - step) (-1) 1 + step) (-1) 1 := rfl

/-- **C3** (amended): for a nonnegative step `s`, holding only the increment
button R1 for `k` ticks from the zero-initialized state leaves the
accumulator at exactly `min (k*s) 1`; and holding increment and decrement
together leaves the accumulator unchanged provided the decrement does not
clamp, i.e. for accumulator values in `[s - 1, 1]` (at values below `s - 1`,
in particular at the reachable value `-1`, the clamp makes the pair net a
positive change). -/
theorem updateAccumulators_spec (k : ℕ) (stepQ : ℚ) (g : SysState)
    (hs : 0 ≤ stepQ) (hhi : g.lr1_accumulated ≤ 1)
    (hband : stepQ - 1 ≤ g.lr1_accumulated) :
    (iterateHold initialSys (buttonsOnly [BUTTON_R1]) stepQ k).lr1_accumulated =
      min ((k : ℚ) * stepQ) 1 ∧
    (updateAccumulators g (buttonsOnly [BUTTON_L1, BUTTON_R1]) stepQ).lr1_accumulated =
      g.lr1_accumulated := by
  constructor
  · induction k with
    | zero =>
        simp only [iterateHold, initialSys, Nat.cast_zero, zero_mul]
        exact (min_eq_left zero_le_one).symm
    | succ n ih =>
        rw [iterateHold, updateAccumulators_holdR1_lr1, ih,
          clampQ_add_min (n : ℚ) stepQ (Nat.cast_nonneg n) hs]
        norm_cast
  · rw [updateAccumulators_holdBoth_lr1]
    have hinner : clampQ (g.lr1_accumulated - stepQ) (-1) 1 =
        g.lr1_accumulated - stepQ :=
      clampQ_eq_self (by linarith) (by linarith)
    rw [hinner]
    have harith : g.lr1_accumulated - stepQ + stepQ = g.lr1_accumulated := by ring
    rw [harith]
    exact clampQ_eq_self (by linarith) hhi

theorem updateAccumulators_spec_witness :
    ((0 : ℚ) ≤ 1/2 ∧ initialSys.lr1_accumulated ≤ 1 ∧
      (1/2 : ℚ) - 1 ≤ initialSys.lr1_accumulated) ∧
    ((iterateHold initialSys (buttonsOnly [BUTTON_R1]) (1/2) 3).lr1_accumulated =
        min ((3 : ℕ) * (1/2 : ℚ)) 1 ∧
      (updateAccumulators initialSys
          (buttonsOnly [BUTTON_L1, BUTTON_R1]) (1/2)).lr1_accumulated =
        initialSys.lr1_accumulated) :=
  ⟨⟨by norm_num, by norm_num [initialSys], by norm_num [initialSys]⟩,
   updateAccumulators_spec 3 (1/2) initialSys (by norm_num)
     (by norm_num [initialSys]) (by norm_num [initialSys])⟩

/-- **C3** fails as stated: first, for a negative step (`s = -2`, one tick of
the increment button) the clamp stops the accumulator at `-1` while the claim
demands `min (1 * (-2)) 1 = -2`; second, at the reachable accumulator value
`-1` with the configured step `0.001`, holding both buttons of the pair moves
the accumulator to `-0.999` instead of leaving it unchanged (the decrement
clamps at `-1`, then the increment lands above it). -/
theorem updateAccumulators_counterexample :
    ((iterateHold initialSys (buttonsOnly [BUTTON_R1]) (-2) 1).lr1_accumulated ≠
      min (((1 : ℕ) : ℚ) * (-2)) 1) ∧
    ((updateAccumulators
        ⟨JoystickState.zero, false, false, JoystickState.zero, -1, 0,
          PipelineState.init⟩
        (buttonsOnly [BUTTON_L1, BUTTON_R1]) accumStep).lr1_accumulated ≠ -1) := by
  constructor
  · rw [show (iterateHold initialSys (buttonsOnly [BUTTON_R1]) (-2) 1).lr1_accumulated =
        clampQ ((0 : ℚ) + -2) (-1) 1 from rfl]
    unfold clampQ
    norm_num [min_def]
  · rw [updateAccumulators_holdBoth_lr1]
    show clampQ (clampQ ((-1 : ℚ) - accumStep) (-1) 1 + accumStep) (-1) 1 ≠ -1
    unfold clampQ accumStep
    norm_num

/-! ### C4: the initialization gate -/

theorem gateRun_enabled_source (ts : List GateTick) :
    ∀ g : GateMachine, (gateRun g ts).inputEnabled = true →
      g.inputEnabled = true ∨
        ∃ t ∈ ts, INIT_DELAY_SEC ≤ t.elapsed ∧ t.startLocal = 1 := by
  induction ts with
  | nil => intro g h; exact Or.inl h
  | cons t tl ih =>
      intro g h
      rcases ih (gateTick g t) h with h1 | h2
      · unfold gateTick at h1
        dsimp only at h1
        by_cases hid : g.initDone = false
        · rw [if_pos hid] at h1
          split at h1
          · rename_i hcond
            right
            refine ⟨t, List.mem_cons_self _ _, ?_, hcond.2.2⟩
            have h3 := hcond.2.1
            unfold INIT_DELAY_SEC at h3 ⊢
            have h5 : (3 : ℤ) ≤ ⌊t.elapsed⌋ := by exact_mod_cast h3
            have h6 : ((⌊t.elapsed⌋ : ℤ) : ℚ) ≤ t.elapsed := Int.floor_le t.elapsed
            have h7 : ((3 : ℤ) : ℚ) ≤ ((⌊t.elapsed⌋ : ℤ) : ℚ) := by exact_mod_cast h5
            calc (3 : ℚ) = ((3 : ℤ) : ℚ) := by norm_num
              _ ≤ _ := le_trans h7 h6
          · exact Or.inl h1
        · rw [if_neg hid, if_neg (show ¬ (g.initDone = false ∧
              INIT_DELAY_SEC ≤ ((⌊t.elapsed⌋ : ℤ) : ℚ) ∧ g.sharedStart = 1)
              from fun hc => hid hc.1)] at h1
          exact Or.inl h1
      · exact Or.inr (h2.imp (fun x hx => ⟨List.mem_cons_of_mem _ hx.1, hx.2⟩))

/-- **C4**: whenever a run of gate ticks from the loop-entry state ends with
`inputEnabled = true`, some tick of the run had both at least
`INIT_DELAY_SEC` seconds elapsed since ingestion start and the START button
pressed; hence the gate never enables before the minimum elapsed time
regardless of buttons, and never enables without the START button observed
pressed regardless of elapsed time. -/
theorem gate_enable_requires_delay_and_start (ts : List GateTick)
    (h : (gateRun gateInit ts).inputEnabled = true) :
    ∃ t ∈ ts, INIT_DELAY_SEC ≤ t.elapsed ∧ t.startLocal = 1 := by
  rcases gateRun_enabled_source ts gateInit h with h1 | h2
  · exact absurd h1 (by decide)
  · exact h2

theorem gate_enable_requires_delay_and_start_witness :
    (gateRun gateInit [⟨4, 1⟩]).inputEnabled = true ∧
    ∃ t ∈ [(⟨4, 1⟩ : GateTick)], INIT_DELAY_SEC ≤ t.elapsed ∧ t.startLocal = 1 :=
  ⟨by decide, gate_enable_requires_delay_and_start [⟨4, 1⟩] (by decide)⟩

/-! ### C7: out-of-range events are silently dropped -/

theorem applyEvent_out_of_range (ls : JoystickState) (e : JsEvent)
    (h : eventOutOfRange e) : applyEvent ls e = ls := by
  cases e with
  | axis n v =>
      simp only [eventOutOfRange] at h
      exact dif_neg (not_lt.mpr h)
  | button n v =>
      simp only [eventOutOfRange] at h
      exact dif_neg (not_lt.mpr h)

/-- **C7**: an event whose index is at or beyond the configured maximum is
silently dropped: the local frame is unchanged, and the whole loop iteration
(local frame, shared state, accumulators, gate) equals the iteration in which
no event arrived. -/
theorem loopTick_out_of_range (s : SysState) (e : JsEvent)
    (elapsedInit elapsedPipeline : ℚ) (h : eventOutOfRange e) :
    applyEvent s.localState e = s.localState ∧
    loopTick s (some e) elapsedInit elapsedPipeline =
      loopTick s none elapsedInit elapsedPipeline := by
  refine ⟨applyEvent_out_of_range s.localState e h, ?_⟩
  unfold loopTick
  dsimp only
  rw [applyEvent_out_of_range s.localState e h]

theorem loopTick_out_of_range_witness :
    eventOutOfRange (JsEvent.axis MAX_AXES 5) ∧
    (applyEvent initialSys.localState (JsEvent.axis MAX_AXES 5) =
        initialSys.localState ∧
      loopTick initialSys (some (JsEvent.axis MAX_AXES 5)) 0 0 =
        loopTick initialSys none 0 0) :=
  ⟨le_refl MAX_AXES,
   loopTick_out_of_range initialSys (JsEvent.axis MAX_AXES 5) 0 0
     (le_refl MAX_AXES)⟩

/-! ### C10: the accumulator update touches nothing else -/

/-- **C10**: `updateAccumulators` modifies only the two accumulator scalars:
`head_shared` (every axis value and every button state) and every other
component of the loop state are unchanged by the call. -/
theorem updateAccumulators_frame (s : SysState) (state : JoystickState)
    (step : ℚ) :
    (updateAccumulators s state step).head_shared = s.head_shared ∧
    (∀ i, (updateAccumulators s state step).head_shared.axes i =
      s.head_shared.axes i) ∧
    (∀ i, (updateAccumulators s state step).head_shared.buttons i =
      s.head_shared.buttons i) ∧
    (updateAccumulators s state step).localState = s.localState ∧
    (updateAccumulators s state step).initDone = s.initDone ∧
    (updateAccumulators s state step).inputEnabled = s.inputEnabled ∧
    (updateAccumulators s state step).pipeline = s.pipeline :=
  ⟨rfl, fun _ => rfl, fun _ => rfl, rfl, rfl, rfl, rfl⟩

end Joy
